import Mathlib

/-!
Verification of the isucon13 benchmark harness driver (`bench/cmd/bench/bench.go`)
and the webapp user handler (`webapp/php/src/User/Handler.php`).

The Go and PHP code is shallowly embedded: pure helpers become Lean functions,
the effectful `run.Action` body becomes a function from an environment (the
outcomes of its external calls) to the ordered list of observable events it
performs plus its exit status, and each PHP handler becomes a function from an
environment (request body, database answers, filesystem answers) to the ordered
list of database operations plus the HTTP outcome.
-/

/- ### `uniqueMsgs` (bench.go lines 40-50)

The Go function folds over the messages keeping a `dedup` set of already-seen
messages and appending each message to the output the first time it is seen. -/

/-- The recursive worker of `uniqueMsgs`: `dedup` is the set of messages already
emitted (a Go `map[string]struct\x7b\x7d`, modelled as a list). -/
def uniqueMsgsGo (dedup : List String) : List String → List String
  | [] => []
  | m :: ms =>
    if m ∈ dedup then uniqueMsgsGo dedup ms
    else m :: uniqueMsgsGo (m :: dedup) ms

/-- `uniqueMsgs` returns the deduplicated message list (bench.go lines 40-50). -/
def uniqueMsgs (msgs : List String) : List String :=
  uniqueMsgsGo [] msgs

/- Specification-side deduplication: keep the first occurrence of each message,
erase every later duplicate. This is the plain statement of "removes duplicates
by exact text while preserving first-seen order", written as a different
algorithm so that agreement with `uniqueMsgs` is informative. -/

/-- First-seen-order deduplication: keep each message's first occurrence and
drop all its later occurrences. -/
def dedupFirst : List String → List String
  | [] => []
  | m :: ms => m :: dedupFirst (ms.filter (fun x => decide (x ≠ m)))
termination_by l => l.length
decreasing_by
  simp only [List.length_cons, Nat.lt_succ_iff]
  exact List.length_filter_le _ _

theorem uniqueMsgsGo_eq_dedupFirst (msgs : List String) :
    ∀ dedup : List String,
      uniqueMsgsGo dedup msgs = dedupFirst (msgs.filter (fun x => decide (x ∉ dedup))) := by
  induction msgs with
  | nil => intro dedup; simp [uniqueMsgsGo, dedupFirst]
  | cons m ms ih =>
    intro dedup
    by_cases hm : m ∈ dedup
    · rw [uniqueMsgsGo, if_pos hm, List.filter_cons, if_neg (by simp [hm]), ih]
    · rw [uniqueMsgsGo, if_neg hm, ih (m :: dedup), List.filter_cons, if_pos (by simp [hm]),
        dedupFirst, List.filter_filter]
      have hf : List.filter (fun x => decide (x ∉ m :: dedup)) ms
          = List.filter (fun a => decide (a ≠ m) && decide (a ∉ dedup)) ms := by
        apply List.filter_congr
        intro x _
        by_cases hx : x = m <;> by_cases hx' : x ∈ dedup <;> simp [hx, hx']
      rw [hf]

theorem uniqueMsgs_eq_dedupFirst (msgs : List String) :
    uniqueMsgs msgs = dedupFirst msgs := by
  rw [uniqueMsgs, uniqueMsgsGo_eq_dedupFirst msgs []]
  congr 1
  simp

theorem uniqueMsgsGo_sublist (msgs : List String) :
    ∀ dedup : List String, List.Sublist (uniqueMsgsGo dedup msgs) msgs := by
  induction msgs with
  | nil => intro dedup; exact List.Sublist.refl []
  | cons m ms ih =>
    intro dedup
    by_cases hm : m ∈ dedup
    · rw [uniqueMsgsGo, if_pos hm]
      exact List.Sublist.cons m (ih dedup)
    · rw [uniqueMsgsGo, if_neg hm]
      exact List.Sublist.cons₂ m (ih (m :: dedup))

theorem uniqueMsgsGo_not_mem_dedup (msgs : List String) :
    ∀ dedup x, x ∈ uniqueMsgsGo dedup msgs → x ∉ dedup := by
  induction msgs with
  | nil => intro dedup x hx; cases hx
  | cons m ms ih =>
    intro dedup x hx
    by_cases hm : m ∈ dedup
    · rw [uniqueMsgsGo, if_pos hm] at hx
      exact ih dedup x hx
    · rw [uniqueMsgsGo, if_neg hm] at hx
      rcases List.mem_cons.mp hx with h | h
      · exact h ▸ hm
      · intro hxd
        exact ih (m :: dedup) x h (List.mem_cons_of_mem m hxd)

theorem uniqueMsgsGo_nodup (msgs : List String) :
    ∀ dedup : List String, (uniqueMsgsGo dedup msgs).Nodup := by
  induction msgs with
  | nil => intro dedup; exact List.nodup_nil
  | cons m ms ih =>
    intro dedup
    by_cases hm : m ∈ dedup
    · rw [uniqueMsgsGo, if_pos hm]; exact ih dedup
    · rw [uniqueMsgsGo, if_neg hm]
      refine List.nodup_cons.mpr ⟨?_, ih (m :: dedup)⟩
      intro hmem
      exact uniqueMsgsGo_not_mem_dedup ms (m :: dedup) m hmem (List.mem_cons_self m dedup)

theorem uniqueMsgsGo_mem_of_mem (msgs : List String) :
    ∀ dedup x, x ∈ msgs → x ∉ dedup → x ∈ uniqueMsgsGo dedup msgs := by
  induction msgs with
  | nil => intro dedup x hx; cases hx
  | cons m ms ih =>
    intro dedup x hx hxd
    by_cases hm : m ∈ dedup
    · rw [uniqueMsgsGo, if_pos hm]
      rcases List.mem_cons.mp hx with h | h
      · exact absurd (h ▸ hm) hxd
      · exact ih dedup x h hxd
    · rw [uniqueMsgsGo, if_neg hm]
      by_cases hxm : x = m
      · exact hxm ▸ List.mem_cons_self m _
      · rcases List.mem_cons.mp hx with h | h
        · exact absurd h hxm
        · refine List.mem_cons_of_mem m (ih (m :: dedup) x h ?_)
          intro hc
          rcases List.mem_cons.mp hc with h' | h'
          · exact hxm h'
          · exact hxd h'

/-- C2: for every list of messages, the deduplication used for the final report
removes duplicates by exact text (the output is duplicate-free and has exactly
the input's members) while preserving first-seen order (it equals the
keep-first-occurrence deduplication, and is a sublist of the input); in
particular `uniqueMsgs ["a","b","a","c","b"] = ["a","b","c"]`. -/
theorem uniqueMsgs_dedups_by_text_first_seen_order :
    (∀ msgs : List String, uniqueMsgs msgs = dedupFirst msgs)
    ∧ (∀ msgs : List String,
        (uniqueMsgs msgs).Nodup
        ∧ List.Sublist (uniqueMsgs msgs) msgs
        ∧ (∀ m, m ∈ uniqueMsgs msgs ↔ m ∈ msgs))
    ∧ uniqueMsgs ["a", "b", "a", "c", "b"] = ["a", "b", "c"] := by
  refine ⟨uniqueMsgs_eq_dedupFirst, ?_, by decide⟩
  intro msgs
  refine ⟨uniqueMsgsGo_nodup msgs [], uniqueMsgsGo_sublist msgs [], ?_⟩
  intro m
  constructor
  · exact fun h => (uniqueMsgsGo_sublist msgs []).mem h
  · intro h
    exact uniqueMsgsGo_mem_of_mem msgs [] m h (by simp)

/- ### Report-time scenario counter pairing (bench.go lines 246-259)

The report loop walks `benchmarker.ScenarioCounter()`.  A tag whose name ends
in `"-fail"` (Go `strings.HasSuffix`) is logged as a failure counter; for any
other tag the loop looks up the counter stored under `name + "-fail"`
(Go `fmt.Sprintf("%s-fail", name)`) and, when present, logs the success/fail
pair.  Tag names are modelled as `List Char`. -/

/-- The five characters of the `"-fail"` suffix used by the report loop. -/
def failSuffix : List Char := "-fail".data

/-- `strings.HasSuffix(string(name), "-fail")` (bench.go line 248). -/
def reportIsFailTag (name : List Char) : Bool :=
  List.isSuffixOf failSuffix name

/-- `score.ScoreTag(fmt.Sprintf("%s-fail", name))` (bench.go line 253). -/
def failKey (name : List Char) : List Char :=
  name ++ failSuffix

/-- Go map read `scenarioCounter[failKey]` modelled on an association list. -/
def lookupTag (counter : List (List Char × Nat)) (k : List Char) : Option Nat :=
  match counter.find? (fun e => e.1 == k) with
  | some e => some e.2
  | none => none

/-- One line of the scenario report (bench.go lines 249, 255, 257). -/
inductive ReportLine
  | failLine (name : List Char) (count : Nat)
  | pairLine (name : List Char) (succ : Nat) (failCount : Nat)
  | soloLine (name : List Char) (count : Nat)
deriving DecidableEq

/-- The scenario-counter report loop (bench.go lines 247-259), one iteration
order of the Go map fixed by the list order. -/
def reportScenarioLines (counter : List (List Char × Nat)) : List ReportLine :=
  counter.map (fun e =>
    if reportIsFailTag e.1 then ReportLine.failLine e.1 e.2
    else
      match lookupTag counter (failKey e.1) with
      | some fc => ReportLine.pairLine e.1 e.2 fc
      | none => ReportLine.soloLine e.1 e.2)

/-- C1 counterexample: were the fail-counterpart association carried as an
explicit pair attached at registration rather than inferred from tag names,
appending `"-fail"` to a tag name could not change how the report classifies
it.  The code classifies by suffix: `"visit-top-fail"` is a fail tag while
`"visit-top"` is not. -/
theorem reportFailTag_not_suffix_independent :
    ¬ (∀ name : List Char, reportIsFailTag (name ++ failSuffix) = reportIsFailTag name) := by
  intro h
  have hv := h "visit-top".data
  revert hv
  decide

/-- C1 amended: at report time the fail counterpart is inferred by string-suffix
matching on tag names: for any tag `pre` not itself suffixed `"-fail"`, a
counter holding `pre` and `pre ++ "-fail"` is reported as a success/fail pair
for `pre` (the fail count found under the key `pre ++ "-fail"`), and the tag
named `pre ++ "-fail"` is reported as a failure counter, with no registration
data involved. -/
theorem reportScenarioLines_pairs_by_suffix (pre : List Char) (n m : Nat)
    (h : reportIsFailTag pre = false) :
    reportScenarioLines [(pre, n), (pre ++ failSuffix, m)]
      = [ReportLine.pairLine pre n m, ReportLine.failLine (pre ++ failSuffix) m] := by
  have hne : ¬ (pre == pre ++ failSuffix) = true := by
    simp only [beq_iff_eq]
    intro hc
    have : failSuffix = ([] : List Char) := by
      have := congrArg List.length hc
      simp at this
      simpa using this.symm
    exact absurd this (by decide)
  have hsuf : reportIsFailTag (pre ++ failSuffix) = true := by
    simp [reportIsFailTag, List.isSuffixOf_iff_suffix]
  simp only [reportScenarioLines, List.map_cons, List.map_nil, h, Bool.false_eq_true,
    if_false, hsuf, if_true, lookupTag, failKey, List.find?_cons, hne, beq_self_eq_true]

/-- Witness for the C1 amended theorem at the concrete tag `"a"`. -/
theorem reportScenarioLines_pairs_by_suffix_witness :
    reportScenarioLines [("a".data, 3), ("a".data ++ failSuffix, 2)]
      = [ReportLine.pairLine "a".data 3 2, ReportLine.failLine ("a".data ++ failSuffix) 2] :=
  reportScenarioLines_pairs_by_suffix "a".data 3 2 (by decide)

/- ### DNS resolver configuration (bench.go lines 179-180 and 226-227)

`resolver.NewDNSResolver` lives in `internal/resolver`, which is not part of
the excerpt; only the `ResolveAttempts` field assignment is visible here. -/

/-- A DNS resolver as configured by `run.Action`; only the retry attempt count
matters to the driver. -/
structure DNSResolver where
  resolveAttempts : Nat
deriving DecidableEq

/-- Modelled from the spec: `resolver.NewDNSResolver` (package
`internal/resolver`, not under `src/`) returns a resolver whose
`ResolveAttempts` is the low default used during the timed benchmark phase;
the spec gives no numeric value, so the default stays a parameter. -/
def NewDNSResolver (defaultAttempts : Nat) : DNSResolver :=
  { resolveAttempts := defaultAttempts }

/-- bench.go lines 179-180: `pretestDNSResolver := resolver.NewDNSResolver();
pretestDNSResolver.ResolveAttempts = 10`. -/
def pretestDNSResolver (defaultAttempts : Nat) : DNSResolver :=
  { NewDNSResolver defaultAttempts with resolveAttempts := 10 }

/-- bench.go lines 226-227: `finalcheckDNSResolver := resolver.NewDNSResolver();
finalcheckDNSResolver.ResolveAttempts = 10`. -/
def finalcheckDNSResolver (defaultAttempts : Nat) : DNSResolver :=
  { NewDNSResolver defaultAttempts with resolveAttempts := 10 }

/-- C6: the resolvers used for the Pretest and Finalcheck phases are configured
with `ResolveAttempts = 10`, higher than the benchmark-phase default whenever
that default is below 10. -/
theorem pretest_finalcheck_resolvers_use_ten_attempts (defaultAttempts : Nat)
    (h : defaultAttempts < 10) :
    (pretestDNSResolver defaultAttempts).resolveAttempts = 10
    ∧ (finalcheckDNSResolver defaultAttempts).resolveAttempts = 10
    ∧ (NewDNSResolver defaultAttempts).resolveAttempts
        < (pretestDNSResolver defaultAttempts).resolveAttempts
    ∧ (NewDNSResolver defaultAttempts).resolveAttempts
        < (finalcheckDNSResolver defaultAttempts).resolveAttempts :=
  ⟨rfl, rfl, h, h⟩

/-- Witness for C6 at a concrete default of 3 attempts. -/
theorem pretest_finalcheck_resolvers_use_ten_attempts_witness :
    (pretestDNSResolver 3).resolveAttempts = 10
    ∧ (finalcheckDNSResolver 3).resolveAttempts = 10 :=
  ⟨(pretest_finalcheck_resolvers_use_ten_attempts 3 (by decide)).1,
   (pretest_finalcheck_resolvers_use_ten_attempts 3 (by decide)).2.1⟩

/- ### The frozen counter registry (spec §4.1; package `internal/benchscore`)

The registry implementation is not under `src/`; `run.Action` only calls
`InitCounter`, `DoneCounter`, `GetByTag` and `GetTotalProfit` on it. -/

/-- Modelled from the spec: the `benchscore` counter registry (package
`internal/benchscore`, not under `src/`).  `Done()` stops accepting
increments; a late increment is discarded, never counted. -/
structure CounterRegistry where
  active : Bool
  counts : List (String × Nat)
deriving DecidableEq

/-- Modelled from the spec: `Init()` resets all counters to zero and makes the
registry active. -/
def initCounterRegistry : CounterRegistry :=
  { active := true, counts := [] }

/-- Modelled from the spec: `Increment(tag, delta)` adds `delta` atomically
while the registry is active; after `Done()` the increment is discarded. -/
def incrementCounter (c : CounterRegistry) (tag : String) (delta : Nat) : CounterRegistry :=
  if c.active then
    match c.counts.find? (fun e => e.1 == tag) with
    | some e =>
      { c with counts := c.counts.map (fun e' => if e'.1 == tag then (e'.1, e.2 + delta) else e') }
    | none => { c with counts := c.counts ++ [(tag, delta)] }
  else c

/-- Modelled from the spec: `Done()` freezes the registry snapshot. -/
def doneCounterRegistry (c : CounterRegistry) : CounterRegistry :=
  { c with active := false }

/- ### `run.Action` (bench.go lines 128-292)

The Action body is embedded as a function from the outcomes of its external
calls to the ordered list of observable events it performs, paired with its
success flag (`true` when it returns `nil`). -/

/-- The terminal record of a run (bench.go lines 32-37). -/
structure BenchResult where
  pass : Bool
  score : Int
  messages : List String
  language : String
deriving DecidableEq

/-- The score tags `run.Action` reads for the report (bench.go lines 262-268). -/
inductive ScoreTagRead
  | tooSlow
  | tooManySpam
  | dnsResolve
  | dnsFailed
deriving DecidableEq

/-- Observable events of one `run.Action` execution, in program order. -/
inductive Event
  | printResult (r : BenchResult)
  | initCounter
  | initErrors
  | runPretest
  | runBenchmark
  | doneCounter
  | doneErrors
  | runFinalcheck
  | getFinalErrorMessages
  | getScenarioCounter
  | getByTag (t : ScoreTagRead)
  | getTotalProfit
  | writeResultFile (r : BenchResult)
deriving DecidableEq

/-- `dumpFailedResult(msgs)` (bench.go lines 52-69): marshals and prints a
`BenchResult` with `Pass=false, Score=0` (marshalling a struct of these field
types cannot fail, so the fallback branch at line 63 is unreachable). -/
def dumpFailedResult (language : String) (msgs : List String) : Event :=
  Event.printResult { pass := false, score := 0, messages := msgs, language := language }

/-- Outcomes of the external calls made by one `run.Action` execution. -/
structure RunEnv where
  /-- `logger.InitStaffLogger` (line 130) returned without error. -/
  staffLoggerOk : Bool
  /-- `logger.InitContestantLogger` (line 135) returned without error. -/
  contestantLoggerOk : Bool
  /-- `config.Language` before `Initialize` stores into it (line 176). -/
  configLanguageInit : String
  /-- `isupipe.NewClient` (line 158) returned without error. -/
  newClientOk : Bool
  /-- `initClient.Initialize` (line 171) returned without error. -/
  initializeOk : Bool
  /-- `initializeResp.Language` (line 176). -/
  language : String
  /-- `scenario.Pretest` (line 189) returned without error. -/
  pretestOk : Bool
  /-- The `--pretest-only` flag (line 196). -/
  pretestOnly : Bool
  /-- `benchmarker.run` (line 212) returned without error. -/
  benchRunOk : Bool
  /-- `scenario.FinalcheckScenario` (line 228) returned without error. -/
  finalcheckOk : Bool
  /-- `bencherror.GetFinalErrorMessages()` (line 237), per-category lists. -/
  finalErrorMessages : List (List String)
  /-- `benchscore.GetByTag(benchscore.DNSResolve)` (line 267). -/
  dnsResolveCount : Nat
  /-- `benchscore.GetTotalProfit()` (line 273). -/
  profit : Nat
  /-- `os.WriteFile` (line 287) returned without error. -/
  writeFileOk : Bool

/-- The `run.Action` body (bench.go lines 128-292) as a trace function: the
events it performs in order, and whether it returns without error.  A failed
logger initialization (lines 130-138) returns an error before any observable
event, emitting no result record.  The stale `err` check at lines 181-184 is
dead code (`err` is necessarily `nil` there) and emits nothing. -/
def runAction (env : RunEnv) : List Event × Bool :=
  if env.staffLoggerOk = false then ([], false)
  else if env.contestantLoggerOk = false then ([], false)
  else if env.newClientOk = false then
    ([dumpFailedResult env.configLanguageInit ["webapp初期化クライアント生成が失敗しました"]], false)
  else if env.initializeOk = false then
    ([dumpFailedResult env.configLanguageInit ["初期化が失敗しました"]], false)
  else
    if env.pretestOk = false then
      ([Event.initCounter, Event.initErrors, Event.runPretest,
        dumpFailedResult env.language ["整合性チェックに失敗しました"]], false)
    else if env.pretestOnly = true then
      ([Event.initCounter, Event.initErrors, Event.runPretest], true)
    else
      let benchEvents : List Event :=
        [Event.initCounter, Event.initErrors, Event.runPretest,
         Event.initCounter, Event.initErrors, Event.runBenchmark]
        ++ (if env.benchRunOk then [] else [dumpFailedResult env.language []])
        ++ [Event.doneCounter, Event.doneErrors, Event.runFinalcheck]
      if env.finalcheckOk = false then
        (benchEvents ++ [dumpFailedResult env.language []], false)
      else
        let benchErrors := uniqueMsgs env.finalErrorMessages.flatten
        let reportMsgs : List String :=
          ["名前解決成功数 " ++ toString env.dnsResolveCount,
           "売上: " ++ toString env.profit]
        let result : BenchResult :=
          { pass := true, score := (env.profit : Int),
            messages := benchErrors ++ reportMsgs, language := env.language }
        (benchEvents
          ++ [Event.getFinalErrorMessages, Event.getScenarioCounter,
              Event.getByTag ScoreTagRead.tooSlow, Event.getByTag ScoreTagRead.tooManySpam,
              Event.getByTag ScoreTagRead.dnsResolve, Event.getByTag ScoreTagRead.dnsFailed,
              Event.getTotalProfit, Event.writeResultFile result],
         env.writeFileOk)

/-- All terminal result records emitted by a trace, whether printed to stdout
by `dumpFailedResult` or written to the result file. -/
def resultRecords (evs : List Event) : List BenchResult :=
  evs.filterMap (fun e =>
    match e with
    | Event.printResult r => some r
    | Event.writeResultFile r => some r
    | _ => none)

/-- C3: if the Pretest phase fails, `run.Action` emits the failure record
(`pass=false`, `score=0`, the pretest failure message) and returns an error
without launching the benchmark, computing a score, or writing the result
file. -/
theorem pretest_failure_aborts_before_benchmark (env : RunEnv)
    (h0a : env.staffLoggerOk = true) (h0b : env.contestantLoggerOk = true)
    (h1 : env.newClientOk = true) (h2 : env.initializeOk = true)
    (h3 : env.pretestOk = false) :
    (runAction env).1
      = [Event.initCounter, Event.initErrors, Event.runPretest,
         Event.printResult
           { pass := false, score := 0,
             messages := ["整合性チェックに失敗しました"], language := env.language }]
    ∧ (runAction env).2 = false
    ∧ Event.runBenchmark ∉ (runAction env).1
    ∧ Event.getTotalProfit ∉ (runAction env).1
    ∧ (∀ r, Event.writeResultFile r ∉ (runAction env).1) := by
  simp [runAction, h0a, h0b, h1, h2, h3, dumpFailedResult]

/-- Witness for C3 at a concrete environment whose pretest fails. -/
theorem pretest_failure_aborts_before_benchmark_witness :
    (runAction
      { staffLoggerOk := true, contestantLoggerOk := true,
        configLanguageInit := "", newClientOk := true, initializeOk := true,
        language := "go", pretestOk := false, pretestOnly := false,
        benchRunOk := true, finalcheckOk := true, finalErrorMessages := [],
        dnsResolveCount := 0, profit := 0, writeFileOk := true }).2 = false :=
  (pretest_failure_aborts_before_benchmark
    { staffLoggerOk := true, contestantLoggerOk := true,
      configLanguageInit := "", newClientOk := true, initializeOk := true,
      language := "go", pretestOk := false, pretestOnly := false,
      benchRunOk := true, finalcheckOk := true, finalErrorMessages := [],
      dnsResolveCount := 0, profit := 0, writeFileOk := true }
    rfl rfl rfl rfl rfl).2.1

/-- C4: if the Finalcheck phase fails, the run ends in failure: the last event
is an emitted record with `pass=false` and `score=0`, the Action returns an
error, the result file is never written, and every record emitted during the
whole run has `pass=false` — regardless of the profit the timed phase
accumulated. -/
theorem finalcheck_failure_fails_run (env : RunEnv)
    (h0a : env.staffLoggerOk = true) (h0b : env.contestantLoggerOk = true)
    (h1 : env.newClientOk = true) (h2 : env.initializeOk = true)
    (h3 : env.pretestOk = true) (h4 : env.pretestOnly = false)
    (h5 : env.finalcheckOk = false) :
    ((runAction env).1).getLast?
      = some (Event.printResult
          { pass := false, score := 0, messages := [], language := env.language })
    ∧ (runAction env).2 = false
    ∧ (∀ r, Event.writeResultFile r ∉ (runAction env).1)
    ∧ (∀ r ∈ resultRecords (runAction env).1, r.pass = false ∧ r.score = 0) := by
  cases hb : env.benchRunOk <;>
    simp [runAction, h0a, h0b, h1, h2, h3, h4, h5, hb, dumpFailedResult, resultRecords]

/-- Witness for C4 at a concrete environment where the benchmark succeeded with
positive profit but finalcheck fails. -/
theorem finalcheck_failure_fails_run_witness :
    (runAction
      { staffLoggerOk := true, contestantLoggerOk := true,
        configLanguageInit := "", newClientOk := true, initializeOk := true,
        language := "go", pretestOk := true, pretestOnly := false,
        benchRunOk := true, finalcheckOk := false, finalErrorMessages := [],
        dnsResolveCount := 5, profit := 1000, writeFileOk := true }).2 = false :=
  (finalcheck_failure_fails_run
    { staffLoggerOk := true, contestantLoggerOk := true,
      configLanguageInit := "", newClientOk := true, initializeOk := true,
      language := "go", pretestOk := true, pretestOnly := false,
      benchRunOk := true, finalcheckOk := false, finalErrorMessages := [],
      dnsResolveCount := 5, profit := 1000, writeFileOk := true }
    rfl rfl rfl rfl rfl rfl rfl).2.1

/-- C5 counterexample: it is not true that every run emits exactly one terminal
result record.  In the concrete environment below the benchmark phase returns
an error, `run.Action` emits a failure record mid-run (bench.go line 215) and
then continues to write the `pass=true` terminal record, so two records are
emitted in one run. -/
theorem result_record_not_written_exactly_once :
    ¬ (∀ env : RunEnv, (resultRecords (runAction env).1).length = 1) := by
  intro h
  have hc := h
    { staffLoggerOk := true, contestantLoggerOk := true,
      configLanguageInit := "", newClientOk := true, initializeOk := true,
      language := "go", pretestOk := true, pretestOnly := false,
      benchRunOk := false, finalcheckOk := true, finalErrorMessages := [],
      dnsResolveCount := 0, profit := 0, writeFileOk := true }
  revert hc
  decide

/-- C5 amended: every emitted record is a `BenchResult` of the stated shape;
a run whose staff or contestant logger initialization fails returns before
emitting any record, a run that stops at the `--pretest-only` early return
emits no record, a run whose benchmark phase returns an error (and whose
pretest passed) emits two records, and every other run emits exactly one. -/
theorem result_record_count (env : RunEnv) :
    (resultRecords (runAction env).1).length =
      if env.staffLoggerOk = false then 0
      else if env.contestantLoggerOk = false then 0
      else if env.newClientOk = false then 1
      else if env.initializeOk = false then 1
      else if env.pretestOk = false then 1
      else if env.pretestOnly = true then 0
      else if env.benchRunOk = false then 2
      else 1 := by
  cases h0a : env.staffLoggerOk <;> cases h0b : env.contestantLoggerOk <;>
    cases h1 : env.newClientOk <;> cases h2 : env.initializeOk <;>
    cases h3 : env.pretestOk <;> cases h4 : env.pretestOnly <;>
    cases h5 : env.benchRunOk <;> cases h6 : env.finalcheckOk <;>
    simp [runAction, h0a, h0b, h1, h2, h3, h4, h5, h6, dumpFailedResult, resultRecords]

/-- Which events read the frozen counters for the report. -/
def isCounterRead : Event → Bool
  | Event.getScenarioCounter => true
  | Event.getByTag _ => true
  | Event.getTotalProfit => true
  | _ => false

/-- `true` when no counter-read event occurs before the first
`benchscore.DoneCounter()` event of the trace. -/
def noCounterReadBeforeDone : List Event → Bool
  | [] => true
  | e :: es =>
    if e = Event.doneCounter then true
    else !(isCounterRead e) && noCounterReadBeforeDone es

/-- C7: in every possible `run.Action` execution, `GetTotalProfit`, `GetByTag`
and the scenario-counter snapshot are read only after `DoneCounter()` has
frozen the registry; and on the frozen registry an increment is discarded — it
leaves the registry unchanged rather than being counted. -/
theorem counter_reads_only_after_done :
    (∀ env : RunEnv, noCounterReadBeforeDone (runAction env).1 = true)
    ∧ (∀ (c : CounterRegistry) (tag : String) (delta : Nat),
        incrementCounter (doneCounterRegistry c) tag delta = doneCounterRegistry c) := by
  constructor
  · intro env
    cases h0a : env.staffLoggerOk <;> cases h0b : env.contestantLoggerOk <;>
      cases h1 : env.newClientOk <;> cases h2 : env.initializeOk <;>
      cases h3 : env.pretestOk <;> cases h4 : env.pretestOnly <;>
      cases h5 : env.benchRunOk <;> cases h6 : env.finalcheckOk <;>
      simp [runAction, h0a, h0b, h1, h2, h3, h4, h5, h6, dumpFailedResult,
        noCounterReadBeforeDone, isCounterRead]
  · intro c tag delta
    simp [incrementCounter, doneCounterRegistry]

/- ### `Client.Initialize` (isupipe client, second source part, lines 308-333)

The decode statement reads `if json.NewDecoder(resp.Body).Decode(&initializeResp);
err != nil` — the `if` tests the OLD `err`, which is necessarily `nil` at that
point, so a JSON decode failure is never detected and leaves the response
pointer `nil`. -/

/-- The `/api/initialize` response body (`InitializeResponse`). -/
structure InitializeResponse where
  language : String
deriving DecidableEq

/-- Outcomes of the external calls made by one `Client.Initialize` execution. -/
structure InitializeEnv where
  /-- `c.agent.NewRequest` returned without error. -/
  newRequestOk : Bool
  /-- `c.agent.Do` returned without error. -/
  doOk : Bool
  /-- `resp.StatusCode`. -/
  statusCode : Nat
  /-- The JSON decode of the body: `none` when decoding fails (the pointer
  stays `nil`). -/
  decodeResult : Option InitializeResponse

/-- `Client.Initialize` as a function of its call outcomes, returning the
response pointer (`none` = `nil`) and whether the returned error is non-nil. -/
def clientInitialize (e : InitializeEnv) : Option InitializeResponse × Bool :=
  if e.newRequestOk = false then (none, true)
  else if e.doOk = false then (none, true)
  else if e.statusCode ≠ 200 then (none, true)
  else (e.decodeResult, false)

/-- C8: `Client.Initialize` returns a non-nil error exactly when building the
request fails, sending it fails, or the status is not 200; a body that fails
to decode produces no error, so a `nil` response can be returned together with
a `nil` error. -/
theorem clientInitialize_error_iff (e : InitializeEnv) :
    ((clientInitialize e).2 = true
      ↔ (e.newRequestOk = false ∨ e.doOk = false ∨ e.statusCode ≠ 200))
    ∧ (e.newRequestOk = true → e.doOk = true → e.statusCode = 200 →
        e.decodeResult = none → clientInitialize e = (none, false)) := by
  cases h1 : e.newRequestOk <;> cases h2 : e.doOk <;>
    by_cases h3 : e.statusCode = 200 <;>
    simp [clientInitialize, h1, h2, h3]

/-- Witness for C8: request built and sent, status 200, decode failed — the
caller gets `nil` response and `nil` error. -/
theorem clientInitialize_error_iff_witness :
    clientInitialize
      { newRequestOk := true, doOk := true, statusCode := 200, decodeResult := none }
      = (none, false) :=
  (clientInitialize_error_iff
    { newRequestOk := true, doOk := true, statusCode := 200, decodeResult := none }).2
    rfl rfl rfl rfl

/- ### `registerHandler` (Handler.php lines 193-280) -/

/-- The decoded `POST /api/register` body (`PostUserRequest`). -/
structure PostUserRequest where
  name : String
  displayName : String
  description : String
  password : String
  themeDarkMode : Bool

/-- Database and DNS side effects of `registerHandler`, in program order. -/
inductive DBOp
  | beginTransaction
  | insertUser (name : String)
  | insertTheme
  | addDNSRecord (name : String)
  | commit
deriving DecidableEq

/-- HTTP outcome of `registerHandler`. -/
inductive RegisterOutcome
  | badRequestJson
  | badRequestReservedName
  | internalServerError
  | created
deriving DecidableEq

/-- Outcomes of the external calls made by one `registerHandler` execution. -/
structure RegisterEnv where
  /-- The decoded request body; `none` when the JSON decode throws. -/
  body : Option PostUserRequest
  /-- The `INSERT INTO users` statement succeeded. -/
  insertUserOk : Bool
  /-- The `INSERT INTO themes` statement succeeded. -/
  insertThemeOk : Bool
  /-- The `pdnsutil add-record` command succeeded. -/
  pdnsOk : Bool
  /-- `fillUserResponse` succeeded. -/
  fillUserOk : Bool

/-- `registerHandler` (Handler.php lines 193-280) as a trace function: the
database/DNS operations it performs in order and its HTTP outcome. -/
def registerHandler (env : RegisterEnv) : List DBOp × RegisterOutcome :=
  match env.body with
  | none => ([], RegisterOutcome.badRequestJson)
  | some req =>
    if req.name = "pipe" then ([], RegisterOutcome.badRequestReservedName)
    else if env.insertUserOk = false then
      ([DBOp.beginTransaction], RegisterOutcome.internalServerError)
    else if env.insertThemeOk = false then
      ([DBOp.beginTransaction, DBOp.insertUser req.name], RegisterOutcome.internalServerError)
    else if env.pdnsOk = false then
      ([DBOp.beginTransaction, DBOp.insertUser req.name, DBOp.insertTheme],
       RegisterOutcome.internalServerError)
    else if env.fillUserOk = false then
      ([DBOp.beginTransaction, DBOp.insertUser req.name, DBOp.insertTheme,
        DBOp.addDNSRecord req.name], RegisterOutcome.internalServerError)
    else
      ([DBOp.beginTransaction, DBOp.insertUser req.name, DBOp.insertTheme,
        DBOp.addDNSRecord req.name, DBOp.commit], RegisterOutcome.created)

/-- C9: a registration request whose name is the reserved string `"pipe"` gets
a BadRequest before any database work: no transaction is opened and no user,
theme or DNS record is created. -/
theorem registerHandler_rejects_pipe (env : RegisterEnv) (req : PostUserRequest)
    (h1 : env.body = some req) (h2 : req.name = "pipe") :
    registerHandler env = ([], RegisterOutcome.badRequestReservedName)
    ∧ DBOp.beginTransaction ∉ (registerHandler env).1
    ∧ (∀ n, DBOp.insertUser n ∉ (registerHandler env).1)
    ∧ DBOp.insertTheme ∉ (registerHandler env).1
    ∧ (∀ n, DBOp.addDNSRecord n ∉ (registerHandler env).1) := by
  simp [registerHandler, h1, h2]

/-- Witness for C9 at a concrete registration of the name `"pipe"`. -/
theorem registerHandler_rejects_pipe_witness :
    registerHandler
      { body := some { name := "pipe", displayName := "p", description := "d",
                       password := "pw", themeDarkMode := false },
        insertUserOk := true, insertThemeOk := true, pdnsOk := true, fillUserOk := true }
      = ([], RegisterOutcome.badRequestReservedName) :=
  (registerHandler_rejects_pipe
    { body := some { name := "pipe", displayName := "p", description := "d",
                     password := "pw", themeDarkMode := false },
      insertUserOk := true, insertThemeOk := true, pdnsOk := true, fillUserOk := true }
    { name := "pipe", displayName := "p", description := "d",
      password := "pw", themeDarkMode := false } rfl rfl).1

/- ### `getIconHandler` (Handler.php lines 39-90) -/

/-- HTTP outcome of `getIconHandler`. -/
inductive IconResult
  | unauthorized
  | notFoundUser
  | internalServerError
  | ok (body : String) (contentType : String)
deriving DecidableEq

/-- PHP truthiness on the string returned by `file_get_contents`: the elvis
`?:` at Handler.php line 80 falls through to the throw on the falsy strings
`""` and `"0"` as well as on read failure. -/
def phpFalsyString (s : String) : Bool :=
  s == "" || s == "0"

/-- Outcomes of the external calls made by one `getIconHandler` execution. -/
structure GetIconEnv where
  /-- `verifyUserSession` did not throw. -/
  sessionOk : Bool
  /-- The `SELECT * FROM users` query succeeded. -/
  userQueryOk : Bool
  /-- The fetched user row: `none` when `fetch()` returns `false`. -/
  userRow : Option Nat
  /-- The `SELECT image FROM icons` query succeeded. -/
  iconQueryOk : Bool
  /-- `fetchColumn()` result: `none` when it returns `false` (no icon row). -/
  iconImage : Option String
  /-- `file_get_contents(FALLBACK_IMAGE)`: `none` when the read fails. -/
  fallbackImage : Option String

/-- `getIconHandler` (Handler.php lines 39-90) as a function of its call
outcomes. -/
def getIconHandler (env : GetIconEnv) : IconResult :=
  if env.sessionOk = false then IconResult.unauthorized
  else if env.userQueryOk = false then IconResult.internalServerError
  else
    match env.userRow with
    | none => IconResult.notFoundUser
    | some _uid =>
      if env.iconQueryOk = false then IconResult.internalServerError
      else
        match env.iconImage with
        | some img => IconResult.ok img "image/jpeg"
        | none =>
          match env.fallbackImage with
          | none => IconResult.internalServerError
          | some img =>
            if phpFalsyString img then IconResult.internalServerError
            else IconResult.ok img "image/jpeg"

/-- C10: for an existing user with no icon row, `getIconHandler` responds with
the fallback image contents and Content-Type `image/jpeg` rather than a
NotFound error (given that the fallback file reads back a non-falsy string). -/
theorem getIconHandler_falls_back_to_default_image (env : GetIconEnv) (uid : Nat) (img : String)
    (h1 : env.sessionOk = true) (h2 : env.userQueryOk = true)
    (h3 : env.userRow = some uid) (h4 : env.iconQueryOk = true)
    (h5 : env.iconImage = none) (h6 : env.fallbackImage = some img)
    (h7 : phpFalsyString img = false) :
    getIconHandler env = IconResult.ok img "image/jpeg"
    ∧ getIconHandler env ≠ IconResult.notFoundUser := by
  simp [getIconHandler, h1, h2, h3, h4, h5, h6, h7]

/-- Witness for C10 at a concrete user with no icon row. -/
theorem getIconHandler_falls_back_to_default_image_witness :
    getIconHandler
      { sessionOk := true, userQueryOk := true, userRow := some 7,
        iconQueryOk := true, iconImage := none, fallbackImage := some "JPEGDATA" }
      = IconResult.ok "JPEGDATA" "image/jpeg" :=
  (getIconHandler_falls_back_to_default_image
    { sessionOk := true, userQueryOk := true, userRow := some 7,
      iconQueryOk := true, iconImage := none, fallbackImage := some "JPEGDATA" }
    7 "JPEGDATA" rfl rfl rfl rfl rfl rfl (by decide)).1
